import Mathlib

/-!
# github-activity: a verification development of `main.go`

A shallow embedding of the command-line program `github-activity`
(`main.go`): the event formatter `formatEvent`, the fetcher `GetUserEvent`
and the entry point `main`.

Conventions of the embedding.

* Go `string` and `[]byte` values (`os.Args`, repository names, raw JSON) are
  Lean `String`s; Go `int` values are `Int`s (no arithmetic is performed on
  them, they are only printed).
* The Go standard library is not part of the repository.  `fmt.Sprintf` is
  modelled by a small interpreter of format strings for the verbs the
  program uses (`%s` on strings and errors, `%d` on integers); flags, widths
  and the other verbs of `fmt` are outside the model.  `encoding/json`,
  `net/http` and `io` are taken as parameters (`Json`, `Env`): every theorem
  quantifies over all behaviours of those libraries.
* Standard output and the outbound HTTP requests are explicit state
  (`World`).  A Go run-time panic is an explicit result.
-/

namespace GithubActivity

/-! ## `fmt` -/

/-- An operand of a `fmt` formatting call. -/
inductive Arg where
  | str (s : String)
  | int (n : Int)
  deriving DecidableEq, Repr

/-- Decimal rendering of an integer, as the verb `%d` prints it: the digits in
base ten, most significant first, with a leading `-` for a negative number. -/
def decimal (n : Int) : String :=
  if n < 0 then String.mk ('-' :: Nat.toDigits 10 n.natAbs)
  else String.mk (Nat.toDigits 10 n.natAbs)

/-- What `fmt` prints for the verb `v` applied to the operand `a`.  The
program only ever applies `%s` to a string (or an error, which prints as its
message) and `%d` to an integer; `%d` on a string and `%s` on an integer
print the diagnostic `%!v(type=value)`, and so does every verb but `s` and
`d` in this model. -/
def formatVerb (v : Char) (a : Arg) : List Char :=
  match a with
  | Arg.str s =>
    if v = 's' then s.data
    else '%' :: '!' :: v :: ("(string=".data ++ s.data ++ [')'])
  | Arg.int n =>
    if v = 'd' then (decimal n).data
    else '%' :: '!' :: v :: ("(int=".data ++ (decimal n).data ++ [')'])

/-- The body of `fmt.Sprintf`: copies the format, replacing each `%v` by the
next operand printed with verb `v`; `%%` prints a percent sign.  A verb
with no operand left prints `%!v(MISSING)`, a lone `%` at the end prints
`%!(NOVERB)`.  Operands left over at the end of the format are dropped (the
program never passes any). -/
def doPrintf : List Char → List Arg → List Char
  | [], _ => []
  | c :: rest, args =>
    if c = '%' then
      match rest, args with
      | [], _ => "%!(NOVERB)".data
      | v :: rest', [] =>
        if v = '%' then '%' :: doPrintf rest' []
        else '%' :: '!' :: v :: ("(MISSING)".data ++ doPrintf rest' [])
      | v :: rest', a :: args' =>
        if v = '%' then '%' :: doPrintf rest' (a :: args')
        else formatVerb v a ++ doPrintf rest' args'
    else c :: doPrintf rest args

/-- Model of `fmt.Sprintf(format, args...)`. -/
def Sprintf (format : String) (args : List Arg) : String :=
  String.mk (doPrintf format.data args)

/-! ## Data model (`main.go`, lines 13-49) -/

/-- The type `json.RawMessage`: an undecoded JSON value. -/
abbrev RawMessage := String

/-- The anonymous struct of the field `Repo` of `Event`. -/
structure Repo where
  Name : String := ""
  deriving DecidableEq, Repr

/-- The struct `Event`. -/
structure Event where
  Type_ : String := ""
  Repo : Repo := {}
  Payload : RawMessage := ""
  deriving DecidableEq, Repr

structure PushEventPayload where
  Size : Int := 0
  deriving DecidableEq, Repr

structure IssuesEventPayload where
  Action : String := ""
  deriving DecidableEq, Repr

structure WatchEventPayload where
  Action : String := ""
  deriving DecidableEq, Repr

/-- The anonymous struct of the field `Forkee` of `ForkEventPayload`. -/
structure Forkee where
  HTMLURL : String := ""
  deriving DecidableEq, Repr

structure ForkEventPayload where
  Forkee : Forkee := {}
  deriving DecidableEq, Repr

structure CreateEventPayload where
  RefType : String := ""
  deriving DecidableEq, Repr

structure DeleteEventPayload where
  RefType : String := ""
  deriving DecidableEq, Repr

structure PullRequestEventPayload where
  Action : String := ""
  deriving DecidableEq, Repr

/-! ## `encoding/json` -/

/-- A Go `error` value, identified with its message; `none` is `nil`. -/
abbrev Error := Option String

/-- The function `json.Unmarshal(data, &v)` at a target type `α`: from the
input and the value `v` held before the call, the value held after the call
and the error returned.  On an error the target may have been partly
filled. -/
abbrev Unmarshal (α : Type) := RawMessage → α → α × Error

/-- The behaviour of `json.Unmarshal` at each target type the program uses. -/
structure Json where
  Push : Unmarshal PushEventPayload
  Issues : Unmarshal IssuesEventPayload
  Watch : Unmarshal WatchEventPayload
  Fork : Unmarshal ForkEventPayload
  Create : Unmarshal CreateEventPayload
  Delete : Unmarshal DeleteEventPayload
  PullRequest : Unmarshal PullRequestEventPayload
  Events : Unmarshal (List Event)

/-! ## `formatEvent` (`main.go`, lines 99-139) -/

/-- The function `formatEvent`.  Each case declares a zero-valued payload,
decodes `event.Payload` into it and tests the error and the decoded field; a
case whose test fails leaves the `switch` and reaches the final
`return ""`. -/
def formatEvent (json : Json) (event : Event) : String :=
  let repoName := event.Repo.Name
  if event.Type_ = "PushEvent" then
    let (payload, err) := json.Push event.Payload {}
    if err = none then
      Sprintf "Pushed %d commits to %s" [Arg.int payload.Size, Arg.str repoName]
    else ""
  else if event.Type_ = "IssuesEvent" then
    let (payload, err) := json.Issues event.Payload {}
    if err = none ∧ payload.Action = "opened" then
      Sprintf "Opened a new issue in %s" [Arg.str repoName]
    else ""
  else if event.Type_ = "WatchEvent" then
    let (payload, err) := json.Watch event.Payload {}
    if err = none ∧ payload.Action = "started" then
      Sprintf "Starred %s" [Arg.str repoName]
    else ""
  else if event.Type_ = "ForkEvent" then
    let (payload, err) := json.Fork event.Payload {}
    if err = none then
      Sprintf "Forked %s to %s" [Arg.str repoName, Arg.str payload.Forkee.HTMLURL]
    else ""
  else if event.Type_ = "CreateEvent" then
    let (payload, err) := json.Create event.Payload {}
    if err = none ∧ payload.RefType = "repository" then
      Sprintf "Created repository %s" [Arg.str repoName]
    else ""
  else if event.Type_ = "PullRequestEvent" then
    let (payload, err) := json.PullRequest event.Payload {}
    if err = none ∧ payload.Action = "opened" then
      Sprintf "Opened a pull request in %s" [Arg.str repoName]
    else ""
  else if event.Type_ = "DeleteEvent" then
    let (payload, err) := json.Delete event.Payload {}
    if err ≠ none ∧ payload.RefType = "repository" then
      Sprintf "Deleted repositury %s" [Arg.str repoName]
    else ""
  else ""

/-! ## `net/http`, `io`, `os` -/

/-- The fields of a `*http.Request` the program sets: method, URL and
headers (in the order they were set). -/
structure Request where
  Method : String
  URL : String
  Header : List (String × String) := []
  deriving DecidableEq, Repr

/-- The method `Header.Set(key, value)`: the entry of `key` is replaced by the
single value `value`.  (Both keys the program sets are already in canonical
form.) -/
def Request.setHeader (req : Request) (key value : String) : Request :=
  { req with Header := req.Header.filter (fun kv => kv.1 ≠ key) ++ [(key, value)] }

/-- A `*http.Response`: its status code and what `io.ReadAll(resp.Body)`
returns (the bytes read and the error). -/
structure Response where
  StatusCode : Int
  ReadAll : String × Error
  deriving DecidableEq, Repr

/-- The environment of a run: the behaviour of the libraries the program
calls.  `ParseURL url` tells whether `url` is accepted
by `http.NewRequestWithContext`; `Do req` is the result of
`httpClient.Do(req)` under the one-second deadline, a transport error (a
timeout included) or a response. -/
structure Env where
  json : Json
  ParseURL : String → Bool
  Do : Request → Except String Response

/-- The observable state of a run: what was written to standard output and
the HTTP requests sent so far. -/
structure World where
  stdout : String := ""
  requests : List Request := []
  deriving DecidableEq, Repr

/-- How a run (or a call) ends: the process exits with a status code
(`os.Exit(code)`, or code 0 when `main` returns), or a run-time panic
aborts it. -/
inductive Outcome where
  | exit (code : Nat)
  | panic (msg : String)
  deriving DecidableEq, Repr

/-- The call `fmt.Printf(format, args...)`. -/
def Printf (format : String) (args : List Arg) (w : World) : World :=
  { w with stdout := w.stdout ++ Sprintf format args }

/-- The call `fmt.Println(s)` for one string operand. -/
def Println (s : String) (w : World) : World :=
  { w with stdout := w.stdout ++ s ++ "\n" }

/-- The call `fmt.Errorf(format, args...)`: an error whose message is the
formatted string. -/
def Errorf (format : String) (args : List Arg) : Error :=
  some (Sprintf format args)

/-- The call `http.NewRequestWithContext(ctx, method, url, nil)`: a request
with no header yet, or `nil` when the URL does not parse. -/
def NewRequestWithContext (env : Env) (method url : String) : Option Request :=
  if env.ParseURL url then some { Method := method, URL := url } else none

/-- The Go index expression `xs[i]` for `i ≥ 0`: the element, or the run-time
panic of an index out of range. -/
def index {α : Type} (xs : List α) (i : Nat) : Except String α :=
  match xs[i]? with
  | some x => Except.ok x
  | none =>
    Except.error (Sprintf "runtime error: index out of range [%d] with length %d"
      [Arg.int i, Arg.int xs.length])

/-! ## `Usage`, `GetUserEvent`, `main` (`main.go`, lines 51-97 and 141-165) -/

/-- The function `Usage`. -/
def Usage (w : World) : World :=
  Println "Usage: ./github-activity <username>" w

/-- The function `GetUserEvent`: the world after the call, and either a
panic or the pair `(events, err)` it returns.  The error of
`http.NewRequestWithContext` is discarded by the source, so a `nil` request
is dereferenced by `req.Header.Set`. -/
def GetUserEvent (env : Env) (username : String) (w : World) :
    World × Except String (List Event × Error) :=
  let url := "https://api.github.com/users/" ++ username ++ "/events"
  match NewRequestWithContext env "GET" url with
  | none => (w, Except.error "runtime error: invalid memory address or nil pointer dereference")
  | some req =>
    let req := req.setHeader "User-Agent" "GitHubActivityCLI"
    let req := req.setHeader "Accepts" "application/json"
    let w := { w with requests := w.requests ++ [req] }
    match env.Do req with
    | Except.error err => (w, Except.ok ([], Errorf "response error: %s" [Arg.str err]))
    | Except.ok resp =>
      if resp.StatusCode ≠ 200 then
        if resp.StatusCode = 404 then
          (w, Except.ok ([], Errorf "error: user %s not found" [Arg.str username]))
        else if resp.StatusCode = 403 then
          (w, Except.ok ([], Errorf "API rate limit exceeded" []))
        else
          (w, Except.ok ([], Errorf "error: API request failed with status code: %d"
            [Arg.int resp.StatusCode]))
      else
        match resp.ReadAll with
        | (_, some err) => (w, Except.ok ([], Errorf "error with read: %s" [Arg.str err]))
        | (body, none) =>
          match env.json.Events body [] with
          | (_, some err) =>
            (w, Except.ok ([], Errorf "error with unmarshal: %s" [Arg.str err]))
          | (events, none) => (w, Except.ok (events, none))

/-- The loop `for i := 29; i >= 0; i-- { ... }` of `main`, entered with
`i = k - 1`: `printLoop json events 30 w` is the whole loop.  When the loop
ends `main` returns, so the process exits with status 0. -/
def printLoop (json : Json) (events : List Event) : Nat → World → World × Outcome
  | 0, w => (w, Outcome.exit 0)
  | i + 1, w =>
    match index events i with
    | Except.error p => (w, Outcome.panic p)
    | Except.ok event =>
      let msg := formatEvent json event
      if msg ≠ "" then printLoop json events i (Printf "- %s\n" [Arg.str msg] w)
      else printLoop json events i w

/-- The function `main`, run with `os.Args = args` in the environment `env`
from the empty world: the final world and how the process ends. -/
def main (env : Env) (args : List String) : World × Outcome :=
  let w : World := {}
  if args.length ≠ 2 then
    (Usage w, Outcome.exit 0)
  else
    match index args 1 with
    | Except.error p => (w, Outcome.panic p)
    | Except.ok username =>
      match GetUserEvent env username w with
      | (w, Except.error p) => (w, Outcome.panic p)
      | (w, Except.ok (_, some err)) =>
        (Printf "Error: %s\n" [Arg.str err] w, Outcome.exit 1)
      | (w, Except.ok (events, none)) =>
        if events.length = 0 then
          (Printf "No recent activity found for %s\n" [Arg.str username] w, Outcome.exit 0)
        else
          printLoop env.json events 30
            (Printf "Last 30 activities for %s:\n" [Arg.str username] w)

/-! ## Vocabulary of the statements -/

/-- The URL `GetUserEvent` requests for `username`. -/
def apiURL (username : String) : String :=
  "https://api.github.com/users/" ++ username ++ "/events"

/-- The request `GetUserEvent` sends for `username`. -/
def apiRequest (username : String) : Request :=
  { Method := "GET", URL := apiURL username,
    Header := [("User-Agent", "GitHubActivityCLI"), ("Accepts", "application/json")] }

/-- The seven event types `formatEvent` has a case for. -/
def knownTypes : List String :=
  ["PushEvent", "IssuesEvent", "WatchEvent", "ForkEvent", "CreateEvent",
    "PullRequestEvent", "DeleteEvent"]

/-- The item lines of the events `evs`, in the order of `evs`: one line
`- m` for each event whose format `m` is not empty, nothing for the others. -/
def itemLines (json : Json) : List Event → String
  | [] => ""
  | event :: rest =>
    (if formatEvent json event = "" then "" else "- " ++ formatEvent json event ++ "\n")
      ++ itemLines json rest

/-! ## Concrete inputs

Inputs at which the theorems below are instantiated. -/

/-- A decoder that returns what `encoding/json` returns on the payloads listed
here.  On every other input it behaves as `encoding/json` does on the empty
input: the target is left as it was and the error is
`unexpected end of JSON input`.  The listed `DeleteEvent` payload is the
object with the key `ref_type` twice, first with the string `repository` and
then with the number `1`: `encoding/json` stores the string, records a type
error for the number, goes on, and returns that error. -/
def sampleJson : Json where
  Push data v :=
    if data = "\x7b\"size\":3\x7d" then ({ Size := 3 }, none)
    else if data = "\x7b\"size\":0\x7d" then ({ Size := 0 }, none)
    else (v, some "unexpected end of JSON input")
  Issues data v :=
    if data = "\x7b\"action\":\"opened\"\x7d" then ({ Action := "opened" }, none)
    else if data = "\x7b\"action\":\"closed\"\x7d" then ({ Action := "closed" }, none)
    else (v, some "unexpected end of JSON input")
  Watch data v :=
    if data = "\x7b\"action\":\"started\"\x7d" then ({ Action := "started" }, none)
    else (v, some "unexpected end of JSON input")
  Fork data v :=
    if data = "\x7b\"forkee\":\x7b\"html_url\":\"https://github.com/mona/hello\"\x7d\x7d" then
      ({ Forkee := { HTMLURL := "https://github.com/mona/hello" } }, none)
    else (v, some "unexpected end of JSON input")
  Create data v :=
    if data = "\x7b\"ref_type\":\"repository\"\x7d" then ({ RefType := "repository" }, none)
    else if data = "\x7b\"ref_type\":\"branch\"\x7d" then ({ RefType := "branch" }, none)
    else (v, some "unexpected end of JSON input")
  Delete data v :=
    if data = "\x7b\"ref_type\":\"repository\",\"ref_type\":1\x7d" then
      ({ RefType := "repository" },
        some ("json: cannot unmarshal number into Go struct field " ++
          "DeleteEventPayload.ref_type of type string"))
    else if data = "\x7b\"ref_type\":\"repository\"\x7d" then ({ RefType := "repository" }, none)
    else (v, some "unexpected end of JSON input")
  PullRequest data v :=
    if data = "\x7b\"action\":\"opened\"\x7d" then ({ Action := "opened" }, none)
    else if data = "\x7b\"action\":\"closed\"\x7d" then ({ Action := "closed" }, none)
    else (v, some "unexpected end of JSON input")
  Events _ v := (v, some "unexpected end of JSON input")

/-- An event of type `ty` on the repository `octocat/hello`. -/
def sampleEvent (ty : String) (payload : RawMessage) : Event :=
  { Type_ := ty, Repo := { Name := "octocat/hello" }, Payload := payload }

/-- A `DeleteEvent` whose payload `encoding/json` fails to decode after it has
stored `ref_type = "repository"`. -/
def deleteEvent : Event :=
  sampleEvent "DeleteEvent" "\x7b\"ref_type\":\"repository\",\"ref_type\":1\x7d"

/-- An environment in which every URL parses, the API answers every request
with the status `status` and a body that is read without error, and that body
decodes without error to `events`. -/
def sampleEnv (status : Int) (events : List Event) : Env where
  json := { sampleJson with Events := fun _ _ => (events, none) }
  ParseURL _ := true
  Do _ := Except.ok { StatusCode := status, ReadAll := ("[]", none) }

/-- Five events, newest first; the second and the fourth have an empty
format. -/
def fiveEvents : List Event :=
  [sampleEvent "PushEvent" "\x7b\"size\":3\x7d",
    sampleEvent "IssuesEvent" "\x7b\"action\":\"closed\"\x7d",
    sampleEvent "WatchEvent" "\x7b\"action\":\"started\"\x7d",
    sampleEvent "GollumEvent" "\x7b\x7d",
    sampleEvent "CreateEvent" "\x7b\"ref_type\":\"repository\"\x7d"]

/-- Thirty-one events: six times `fiveEvents`, then one more push. -/
def thirtyOneEvents : List Event :=
  fiveEvents ++ fiveEvents ++ fiveEvents ++ fiveEvents ++ fiveEvents ++ fiveEvents
    ++ [sampleEvent "PushEvent" "\x7b\"size\":0\x7d"]

/-- The three item lines of `fiveEvents`, last event first. -/
def sampleBlock : String :=
  "- Created repository octocat/hello\n- Starred octocat/hello\n"
    ++ "- Pushed 3 commits to octocat/hello\n"

/-! ## Lemmas on `fmt` -/

theorem doPrintf_lit (c : Char) (rest : List Char) (args : List Arg) (h : c ≠ '%') :
    doPrintf (c :: rest) args = c :: doPrintf rest args := by
  rw [doPrintf.eq_def]; simp [h]

theorem doPrintf_s (rest : List Char) (s : String) (args : List Arg) :
    doPrintf ('%' :: 's' :: rest) (Arg.str s :: args) = s.data ++ doPrintf rest args := by
  rw [doPrintf.eq_def]; simp [formatVerb]

theorem doPrintf_d (rest : List Char) (n : Int) (args : List Arg) :
    doPrintf ('%' :: 'd' :: rest) (Arg.int n :: args)
      = (decimal n).data ++ doPrintf rest args := by
  rw [doPrintf.eq_def]; simp [formatVerb]

theorem doPrintf_nil (args : List Arg) : doPrintf [] args = [] := by
  rw [doPrintf.eq_def]

theorem Sprintf_push (n : Int) (r : String) :
    Sprintf "Pushed %d commits to %s" [Arg.int n, Arg.str r]
      = "Pushed " ++ decimal n ++ " commits to " ++ r := by
  apply String.ext
  simp [Sprintf, doPrintf_lit, doPrintf_s, doPrintf_d, doPrintf_nil, String.data_append]

theorem Sprintf_issue (r : String) :
    Sprintf "Opened a new issue in %s" [Arg.str r] = "Opened a new issue in " ++ r := by
  apply String.ext
  simp [Sprintf, doPrintf_lit, doPrintf_s, doPrintf_nil, String.data_append]

theorem Sprintf_starred (r : String) :
    Sprintf "Starred %s" [Arg.str r] = "Starred " ++ r := by
  apply String.ext
  simp [Sprintf, doPrintf_lit, doPrintf_s, doPrintf_nil, String.data_append]

theorem Sprintf_created (r : String) :
    Sprintf "Created repository %s" [Arg.str r] = "Created repository " ++ r := by
  apply String.ext
  simp [Sprintf, doPrintf_lit, doPrintf_s, doPrintf_nil, String.data_append]

theorem Sprintf_pull (r : String) :
    Sprintf "Opened a pull request in %s" [Arg.str r] = "Opened a pull request in " ++ r := by
  apply String.ext
  simp [Sprintf, doPrintf_lit, doPrintf_s, doPrintf_nil, String.data_append]

theorem Sprintf_deleted (r : String) :
    Sprintf "Deleted repositury %s" [Arg.str r] = "Deleted repositury " ++ r := by
  apply String.ext
  simp [Sprintf, doPrintf_lit, doPrintf_s, doPrintf_nil, String.data_append]

/-! ## The formatter -/

/-- Claim C1.  A `PushEvent` whose payload decodes without error to a push
payload of size `N` (any integer, zero and negative numbers included) is
formatted as `Pushed N commits to r`, with `N` in decimal and `r` the
repository name. -/
theorem formatEvent_push (json : Json) (event : Event) (N : Int)
    (htype : event.Type_ = "PushEvent")
    (hdec : json.Push event.Payload {} = ({ Size := N }, none)) :
    formatEvent json event = "Pushed " ++ decimal N ++ " commits to " ++ event.Repo.Name := by
  simp [formatEvent, htype, hdec, Sprintf_push]

theorem formatEvent_push_witness :
    (sampleEvent "PushEvent" "\x7b\"size\":0\x7d").Type_ = "PushEvent"
    ∧ sampleJson.Push (sampleEvent "PushEvent" "\x7b\"size\":0\x7d").Payload {}
        = ({ Size := 0 }, none)
    ∧ formatEvent sampleJson (sampleEvent "PushEvent" "\x7b\"size\":0\x7d")
        = "Pushed 0 commits to octocat/hello" :=
  ⟨by decide, by decide,
    (formatEvent_push sampleJson (sampleEvent "PushEvent" "\x7b\"size\":0\x7d") 0
      (by decide) (by decide)).trans (by decide)⟩

/-- Claim C2.  For the four event types gated on a field, when the payload
decodes without error: an `IssuesEvent` is formatted as
`Opened a new issue in r` when its action is `opened`, a `WatchEvent` as
`Starred r` when its action is `started`, a `CreateEvent` as
`Created repository r` when its ref type is `repository`, a
`PullRequestEvent` as `Opened a pull request in r` when its action is
`opened`, with `r` the repository name; for every other value of the field
the result is the empty string. -/
theorem formatEvent_gated (json : Json) (event : Event) :
    (event.Type_ = "IssuesEvent" → ∀ p : IssuesEventPayload,
      json.Issues event.Payload {} = (p, none) →
      formatEvent json event
        = if p.Action = "opened" then "Opened a new issue in " ++ event.Repo.Name else "")
    ∧ (event.Type_ = "WatchEvent" → ∀ p : WatchEventPayload,
      json.Watch event.Payload {} = (p, none) →
      formatEvent json event
        = if p.Action = "started" then "Starred " ++ event.Repo.Name else "")
    ∧ (event.Type_ = "CreateEvent" → ∀ p : CreateEventPayload,
      json.Create event.Payload {} = (p, none) →
      formatEvent json event
        = if p.RefType = "repository" then "Created repository " ++ event.Repo.Name else "")
    ∧ (event.Type_ = "PullRequestEvent" → ∀ p : PullRequestEventPayload,
      json.PullRequest event.Payload {} = (p, none) →
      formatEvent json event
        = if p.Action = "opened" then "Opened a pull request in " ++ event.Repo.Name
          else "") := by
  refine ⟨?_, ?_, ?_, ?_⟩ <;> intro htype p hdec
  · simp [formatEvent, htype, hdec, Sprintf_issue]
  · simp [formatEvent, htype, hdec, Sprintf_starred]
  · simp [formatEvent, htype, hdec, Sprintf_created]
  · simp [formatEvent, htype, hdec, Sprintf_pull]

theorem formatEvent_gated_witness :
    formatEvent sampleJson (sampleEvent "IssuesEvent" "\x7b\"action\":\"opened\"\x7d")
        = "Opened a new issue in octocat/hello"
    ∧ formatEvent sampleJson (sampleEvent "IssuesEvent" "\x7b\"action\":\"closed\"\x7d") = ""
    ∧ formatEvent sampleJson (sampleEvent "WatchEvent" "\x7b\"action\":\"started\"\x7d")
        = "Starred octocat/hello"
    ∧ formatEvent sampleJson (sampleEvent "CreateEvent" "\x7b\"ref_type\":\"repository\"\x7d")
        = "Created repository octocat/hello"
    ∧ formatEvent sampleJson (sampleEvent "CreateEvent" "\x7b\"ref_type\":\"branch\"\x7d") = ""
    ∧ formatEvent sampleJson (sampleEvent "PullRequestEvent" "\x7b\"action\":\"opened\"\x7d")
        = "Opened a pull request in octocat/hello" :=
  ⟨((formatEvent_gated sampleJson _).1 (by decide) { Action := "opened" } (by decide)).trans
      (by decide),
    ((formatEvent_gated sampleJson _).1 (by decide) { Action := "closed" } (by decide)).trans
      (by decide),
    ((formatEvent_gated sampleJson _).2.1 (by decide) { Action := "started" } (by decide)).trans
      (by decide),
    ((formatEvent_gated sampleJson _).2.2.1 (by decide) { RefType := "repository" }
      (by decide)).trans (by decide),
    ((formatEvent_gated sampleJson _).2.2.1 (by decide) { RefType := "branch" }
      (by decide)).trans (by decide),
    ((formatEvent_gated sampleJson _).2.2.2 (by decide) { Action := "opened" }
      (by decide)).trans (by decide)⟩

/-- Claim C3.  An event whose type is none of the seven known ones is
formatted as the empty string, whatever its repository name, its payload
(valid JSON or not) and the behaviour of the decoder. -/
theorem formatEvent_unknown_type (json : Json) (event : Event)
    (htype : event.Type_ ∉ knownTypes) :
    formatEvent json event = "" := by
  simp only [knownTypes, List.mem_cons, List.mem_singleton, List.not_mem_nil, not_or,
    or_false] at htype
  obtain ⟨h1, h2, h3, h4, h5, h6, h7⟩ := htype
  simp [formatEvent, h1, h2, h3, h4, h5, h6, h7]

theorem formatEvent_unknown_type_witness :
    (sampleEvent "GollumEvent" "not json").Type_ ∉ knownTypes
    ∧ formatEvent sampleJson (sampleEvent "GollumEvent" "not json") = "" :=
  ⟨by decide,
    formatEvent_unknown_type sampleJson (sampleEvent "GollumEvent" "not json") (by decide)⟩

/-- A decode failure yields the empty string for the six types other than
`DeleteEvent`: for each of them, when the decoder of that type reports an
error on the payload, the result is the empty string. -/
theorem formatEvent_decode_failure (json : Json) (event : Event)
    (hdelete : event.Type_ ≠ "DeleteEvent")
    (hpush : event.Type_ = "PushEvent" → (json.Push event.Payload {}).2 ≠ none)
    (hissues : event.Type_ = "IssuesEvent" → (json.Issues event.Payload {}).2 ≠ none)
    (hwatch : event.Type_ = "WatchEvent" → (json.Watch event.Payload {}).2 ≠ none)
    (hfork : event.Type_ = "ForkEvent" → (json.Fork event.Payload {}).2 ≠ none)
    (hcreate : event.Type_ = "CreateEvent" → (json.Create event.Payload {}).2 ≠ none)
    (hpull : event.Type_ = "PullRequestEvent" →
      (json.PullRequest event.Payload {}).2 ≠ none) :
    formatEvent json event = "" := by
  unfold formatEvent
  simp only [hdelete]
  split_ifs with h1 h2 h3 h4 h5 h6 <;> simp_all

/-- Claim C4, evaluated on the code.  The payload of `deleteEvent` fails to
decode, yet `formatEvent` returns a message for it instead of the empty
string: the `DeleteEvent` case tests `err != nil` where the six other cases
test `err == nil`. -/
theorem formatEvent_delete_decode_failure_nonempty :
    (sampleJson.Delete deleteEvent.Payload {}).2 ≠ none
    ∧ formatEvent sampleJson deleteEvent = "Deleted repositury octocat/hello"
    ∧ formatEvent sampleJson deleteEvent ≠ "" := by
  decide

/-- Claim C5, evaluated on the code.  For a `DeleteEvent` whose payload fails
to decode and leaves `ref_type = "repository"`, `formatEvent` returns
`Deleted repositury r` (so spelt in the format string), which is not the
string `Deleted repository r`. -/
theorem formatEvent_delete_misspelt (json : Json) (event : Event) (err : String)
    (htype : event.Type_ = "DeleteEvent")
    (hdec : json.Delete event.Payload {} = ({ RefType := "repository" }, some err)) :
    formatEvent json event = "Deleted repositury " ++ event.Repo.Name
    ∧ formatEvent json event ≠ "Deleted repository " ++ event.Repo.Name := by
  have h : formatEvent json event = "Deleted repositury " ++ event.Repo.Name := by
    simp [formatEvent, htype, hdec, Sprintf_deleted]
  refine ⟨h, ?_⟩
  rw [h]
  intro hne
  have hd := congrArg String.data hne
  simp [String.data_append] at hd

theorem formatEvent_delete_misspelt_witness :
    deleteEvent.Type_ = "DeleteEvent"
    ∧ formatEvent sampleJson deleteEvent = "Deleted repositury " ++ "octocat/hello"
    ∧ formatEvent sampleJson deleteEvent ≠ "Deleted repository " ++ "octocat/hello" :=
  ⟨by decide,
    formatEvent_delete_misspelt sampleJson deleteEvent
      ("json: cannot unmarshal number into Go struct field " ++
        "DeleteEventPayload.ref_type of type string")
      (by decide) (by decide)⟩

/-! ## The fetcher and the entry point -/

theorem Sprintf_status (n : Int) :
    Sprintf "error: API request failed with status code: %d" [Arg.int n]
      = "error: API request failed with status code: " ++ decimal n := by
  apply String.ext
  simp [Sprintf, doPrintf_lit, doPrintf_d, doPrintf_nil, String.data_append]

theorem Sprintf_not_found (u : String) :
    Sprintf "error: user %s not found" [Arg.str u] = "error: user " ++ u ++ " not found" := by
  apply String.ext
  simp [Sprintf, doPrintf_lit, doPrintf_s, doPrintf_nil, String.data_append]

theorem Sprintf_error (e : String) :
    Sprintf "Error: %s\n" [Arg.str e] = "Error: " ++ e ++ "\n" := by
  apply String.ext
  simp [Sprintf, doPrintf_lit, doPrintf_s, doPrintf_nil, String.data_append]

theorem Sprintf_header (u : String) :
    Sprintf "Last 30 activities for %s:\n" [Arg.str u]
      = "Last 30 activities for " ++ u ++ ":\n" := by
  apply String.ext
  simp [Sprintf, doPrintf_lit, doPrintf_s, doPrintf_nil, String.data_append]

theorem Sprintf_item (m : String) :
    Sprintf "- %s\n" [Arg.str m] = "- " ++ m ++ "\n" := by
  apply String.ext
  simp [Sprintf, doPrintf_lit, doPrintf_s, doPrintf_nil, String.data_append]

theorem Sprintf_index (i n : Int) :
    Sprintf "runtime error: index out of range [%d] with length %d" [Arg.int i, Arg.int n]
      = "runtime error: index out of range [" ++ decimal i ++ "] with length " ++ decimal n := by
  apply String.ext
  simp [Sprintf, doPrintf_lit, doPrintf_d, doPrintf_nil, String.data_append]

/-- The request `GetUserEvent` builds is `apiRequest`. -/
theorem GetUserEvent_request (env : Env) (username : String)
    (hurl : env.ParseURL (apiURL username) = true) :
    (NewRequestWithContext env "GET" (apiURL username)).map
        (fun req => (req.setHeader "User-Agent" "GitHubActivityCLI").setHeader
          "Accepts" "application/json")
      = some (apiRequest username) := by
  simp [NewRequestWithContext, hurl, Request.setHeader, apiRequest]

theorem GetUserEvent_stdout (env : Env) (username : String) (w : World) :
    (GetUserEvent env username w).1.stdout = w.stdout := by
  unfold GetUserEvent
  dsimp only
  repeat' split
  all_goals rfl

/-- Claim C6.  When the request is built and answered with a status code `s`
other than 200, 403 and 404 (201 and 204 included), `GetUserEvent` returns no
events and the error `error: API request failed with status code: s`, with
`s` in decimal.  This holds for every decoder `json` and every outcome `body`
of reading the response body: neither is consulted. -/
theorem GetUserEvent_unexpected_status (json : Json) (parseURL : String → Bool)
    (httpDo : Request → Except String Response) (username : String) (s : Int)
    (body : String × Error) (w : World)
    (hurl : parseURL (apiURL username) = true)
    (hdo : httpDo (apiRequest username) = Except.ok { StatusCode := s, ReadAll := body })
    (h200 : s ≠ 200) (h403 : s ≠ 403) (h404 : s ≠ 404) :
    (GetUserEvent { json := json, ParseURL := parseURL, Do := httpDo } username w).2
      = Except.ok ([], some ("error: API request failed with status code: " ++ decimal s)) := by
  simp only [apiRequest, apiURL] at hurl hdo
  simp [GetUserEvent, NewRequestWithContext, hurl, Request.setHeader, hdo, h200, h403, h404,
    Errorf, Sprintf_status]

theorem GetUserEvent_unexpected_status_witness :
    (sampleEnv 204 []).Do (apiRequest "octocat")
        = Except.ok { StatusCode := 204, ReadAll := ("[]", none) }
    ∧ (204 : Int) ≠ 200 ∧ (204 : Int) ≠ 403 ∧ (204 : Int) ≠ 404
    ∧ (GetUserEvent (sampleEnv 204 []) "octocat" {}).2
        = Except.ok ([], some "error: API request failed with status code: 204") :=
  ⟨rfl, by decide, by decide, by decide,
    (GetUserEvent_unexpected_status (sampleEnv 204 []).json (sampleEnv 204 []).ParseURL
      (sampleEnv 204 []).Do "octocat" 204 ("[]", none) {} rfl rfl
      (by decide) (by decide) (by decide)).trans
      (congrArg (fun m : String => Except.ok (([] : List Event), some m)) (by decide))⟩

/-- Claim C7.  Run with one argument `u`, when the request is built and
answered with status 404, the program prints the single line
`Error: error: user u not found` (no header line, no item line), has sent
that one request, and exits with status 1. -/
theorem main_user_not_found (env : Env) (prog u : String) (resp : Response)
    (hurl : env.ParseURL (apiURL u) = true)
    (hdo : env.Do (apiRequest u) = Except.ok resp)
    (h404 : resp.StatusCode = 404) :
    main env [prog, u]
      = ({ stdout := "Error: " ++ ("error: user " ++ u ++ " not found") ++ "\n",
           requests := [apiRequest u] }, Outcome.exit 1) := by
  simp only [apiRequest, apiURL] at hurl hdo
  simp [main, index, GetUserEvent, NewRequestWithContext, hurl, Request.setHeader, hdo, h404,
    Errorf, Sprintf_not_found, Printf, Sprintf_error, apiRequest, apiURL]

theorem main_user_not_found_witness :
    (sampleEnv 404 fiveEvents).ParseURL (apiURL "nobody") = true
    ∧ (sampleEnv 404 fiveEvents).Do (apiRequest "nobody")
        = Except.ok { StatusCode := 404, ReadAll := ("[]", none) }
    ∧ main (sampleEnv 404 fiveEvents) ["./github-activity", "nobody"]
        = ({ stdout := "Error: error: user nobody not found\n",
             requests := [apiRequest "nobody"] }, Outcome.exit 1) :=
  ⟨rfl, rfl,
    (main_user_not_found (sampleEnv 404 fiveEvents) "./github-activity" "nobody"
      { StatusCode := 404, ReadAll := ("[]", none) } rfl rfl rfl).trans (by decide)⟩

/-- Claim C8.  Run with a number of positional arguments (the arguments after
the program name) other than one, the program prints the usage line
`Usage: ./github-activity <username>` and nothing else, sends no request,
and exits with status 0. -/
theorem main_usage (env : Env) (args : List String)
    (hargs : (args.drop 1).length ≠ 1) :
    main env args
      = ({ stdout := "Usage: ./github-activity <username>\n", requests := [] },
          Outcome.exit 0) := by
  have hlen : args.length ≠ 2 := by
    rw [List.length_drop] at hargs
    omega
  simp [main, hlen, Usage, Println]

theorem main_usage_witness :
    (List.drop 1 ["./github-activity"]).length ≠ 1
    ∧ (List.drop 1 ["./github-activity", "octocat", "mona"]).length ≠ 1
    ∧ main (sampleEnv 200 fiveEvents) ["./github-activity"]
        = ({ stdout := "Usage: ./github-activity <username>\n", requests := [] },
            Outcome.exit 0)
    ∧ main (sampleEnv 200 fiveEvents) ["./github-activity", "octocat", "mona"]
        = ({ stdout := "Usage: ./github-activity <username>\n", requests := [] },
            Outcome.exit 0) :=
  ⟨by decide, by decide,
    main_usage (sampleEnv 200 fiveEvents) ["./github-activity"] (by decide),
    main_usage (sampleEnv 200 fiveEvents) ["./github-activity", "octocat", "mona"]
      (by decide)⟩

/-- The loop panics at its first index `i` when `events` has no element
there. -/
theorem printLoop_panic (json : Json) (events : List Event) (i : Nat) (w : World)
    (h : events.length ≤ i) :
    printLoop json events (i + 1) w
      = (w, Outcome.panic ("runtime error: index out of range [" ++ decimal i
          ++ "] with length " ++ decimal events.length)) := by
  simp [printLoop, index, List.getElem?_eq_none h, Sprintf_index]

/-- Entered at an index within `events`, the loop prints the item lines of the
events below that index, highest index first, and ends normally. -/
theorem printLoop_ok (json : Json) (events : List Event) (k : Nat) :
    k ≤ events.length → ∀ w : World,
    printLoop json events k w
      = ({ w with stdout := w.stdout ++ itemLines json (events.take k).reverse },
          Outcome.exit 0) := by
  induction k with
  | zero =>
    intro _ w
    simp [printLoop, itemLines]
  | succ k ih =>
    intro hk w
    have hlt : k < events.length := hk
    have hrev : (events.take (k + 1)).reverse = events[k] :: (events.take k).reverse := by
      rw [List.take_succ, List.getElem?_eq_getElem hlt, List.reverse_append]
      rfl
    rw [hrev]
    simp only [printLoop, index, List.getElem?_eq_getElem hlt, itemLines]
    by_cases hmsg : formatEvent json events[k] = ""
    · simp [hmsg, ih (Nat.le_of_lt hlt)]
    · rw [if_pos hmsg, if_neg hmsg, ih (Nat.le_of_lt hlt)]
      unfold Printf
      rw [Sprintf_item]
      simp only [String.append_assoc]

/-- The window the loop walks through, read by index: position `j` of the
reversed first 30 events is `events[29 - j]`. -/
theorem window_index (events : List Event) (h30 : 30 ≤ events.length) (j : Nat)
    (hj : j < 30) :
    (events.take 30).reverse[j]? = events[29 - j]? := by
  have hlen : (events.take 30).length = 30 := by
    rw [List.length_take]
    omega
  rw [List.getElem?_reverse (by omega), hlen, List.getElem?_take]
  simp only [ite_eq_left_iff]
  intro h
  omega

/-- What `main` does once `GetUserEvent` has returned a non-empty list of
events without error. -/
theorem main_fetched (env : Env) (prog u : String) (events : List Event)
    (hfetch : (GetUserEvent env u {}).2 = Except.ok (events, none))
    (hne : events ≠ []) :
    main env [prog, u]
      = printLoop env.json events 30
          { stdout := "Last 30 activities for " ++ u ++ ":\n",
            requests := (GetUserEvent env u {}).1.requests } := by
  have hout := GetUserEvent_stdout env u {}
  rcases hG : GetUserEvent env u {} with ⟨w1, r⟩
  rw [hG] at hfetch hout
  simp only at hfetch hout
  subst hfetch
  have hw : w1 = { stdout := "", requests := w1.requests } := by
    cases w1
    simp_all
  simp [main, index, hG, hne, Printf, Sprintf_header]
  rw [hw]
  simp

/-- Claim C9, evaluated on the code.  When `GetUserEvent` returns without
error a list of `n` events with `1 ≤ n < 30`, the program prints the header
line and then panics in the first iteration of the loop, at the index
expression `events[29]`: no event is formatted and no item line is
printed. -/
theorem main_short_panics (env : Env) (prog u : String) (events : List Event)
    (hfetch : (GetUserEvent env u {}).2 = Except.ok (events, none))
    (h1 : 1 ≤ events.length) (h30 : events.length < 30) :
    main env [prog, u]
      = ({ stdout := "Last 30 activities for " ++ u ++ ":\n",
           requests := (GetUserEvent env u {}).1.requests },
          Outcome.panic ("runtime error: index out of range [29] with length "
            ++ decimal events.length)) := by
  have hne : events ≠ [] := by
    intro h
    simp [h] at h1
  rw [main_fetched env prog u events hfetch hne,
    printLoop_panic env.json events 29 _ (Nat.le_of_lt_succ h30)]
  have h29 : decimal ((29 : Nat) : Int) = "29" := by decide
  rw [h29]
  rfl

theorem main_short_panics_witness :
    (GetUserEvent (sampleEnv 200 fiveEvents) "octocat" {}).2 = Except.ok (fiveEvents, none)
    ∧ 1 ≤ fiveEvents.length ∧ fiveEvents.length < 30
    ∧ main (sampleEnv 200 fiveEvents) ["./github-activity", "octocat"]
      = ({ stdout := "Last 30 activities for octocat:\n",
           requests := [apiRequest "octocat"] },
          Outcome.panic "runtime error: index out of range [29] with length 5") :=
  ⟨rfl, by decide, by decide,
    (main_short_panics (sampleEnv 200 fiveEvents) "./github-activity" "octocat" fiveEvents
      rfl (by decide) (by decide)).trans (by decide)⟩

/-- Claim C10.  When `GetUserEvent` returns without error a list of at least
30 events, the program prints the header line `Last 30 activities for u:`
and then, for `i` from 29 down to 0, the line `- m` for each event
`events[i]` whose format `m` is not empty and nothing for the others; only
the first 30 events enter the output; the run ends normally, with exit
status 0. -/
theorem main_window (env : Env) (prog u : String) (events : List Event)
    (hfetch : (GetUserEvent env u {}).2 = Except.ok (events, none))
    (h30 : 30 ≤ events.length) :
    main env [prog, u]
      = ({ stdout := "Last 30 activities for " ++ u ++ ":\n"
             ++ itemLines env.json (events.take 30).reverse,
           requests := (GetUserEvent env u {}).1.requests },
          Outcome.exit 0) := by
  have hne : events ≠ [] := by
    intro h
    simp [h] at h30
  rw [main_fetched env prog u events hfetch hne, printLoop_ok env.json events 30 h30]

set_option maxRecDepth 8192 in
theorem main_window_witness :
    (GetUserEvent (sampleEnv 200 thirtyOneEvents) "octocat" {}).2
        = Except.ok (thirtyOneEvents, none)
    ∧ 30 ≤ thirtyOneEvents.length
    ∧ main (sampleEnv 200 thirtyOneEvents) ["./github-activity", "octocat"]
      = ({ stdout := "Last 30 activities for octocat:\n"
             ++ sampleBlock ++ sampleBlock ++ sampleBlock
             ++ sampleBlock ++ sampleBlock ++ sampleBlock,
           requests := [apiRequest "octocat"] },
          Outcome.exit 0) :=
  ⟨rfl, by decide,
    (main_window (sampleEnv 200 thirtyOneEvents) "./github-activity" "octocat"
      thirtyOneEvents rfl (by decide)).trans (by decide)⟩

end GithubActivity
